import Mathlib

/-!
Verification of the session and message-lifecycle manager of a single-user
conversational client (`src/frontend/src/App.jsx`).

The React component keeps four pieces of state: the pending input `prompt`,
the Transcript Buffer `messages`, the Session Archive `chatSessions` and the
loading flag `isLoading`.  The three operations under study are:

* `handleSubmit` (App.jsx lines 68-124): validates the input, appends a user
  message, issues one generation request, appends the bot reply and fires a
  best-effort persistence call;
* `handleNewChat` (App.jsx lines 53-66): archives the current buffer into the
  session list (deduplicated by structural comparison) and clears the buffer;
* `fetchChatHistory` (App.jsx lines 34-48): expands remote history records
  into message pairs and replaces the buffer.

The embedding below is a direct transcription of that code.  JavaScript
`undefined` string fields are modelled as `Option String` (`none` being
`undefined`), timestamps (`new Date()`) are opaque `Nat` parameters, and the
outcome of each remote call is an explicit oracle argument.  `JSON.stringify`
equality of message lists (used for session deduplication) is modelled as
structural equality: the serialization of these records is injective in the
fields compared.
-/

namespace ChatApp

/-- A chat message: `{ text, isUser, timestamp }`.  `text` is `Option String`
because the code can produce a bot message whose `text` is `undefined`. -/
structure Message where
  text : Option String
  isUser : Bool
  timestamp : Nat
deriving DecidableEq, Repr

/-- An archived session is a frozen message sequence. -/
abbrev Session := List Message

/-- The component state relevant to the lifecycle manager: the `useState`
cells `prompt`, `messages`, `chatSessions` and `isLoading` of App.jsx. -/
structure AppState where
  prompt : String
  messages : List Message
  chatSessions : List Session
  isLoading : Bool
deriving DecidableEq, Repr

/-- `const maxMessagesPerSession = 20` (App.jsx line 25). -/
def maxMessagesPerSession : Nat := 20

/-- One `parts` element of a generation-service response; its `text` field may
be absent. -/
structure Part where
  text : Option String
deriving DecidableEq, Repr

/-- The `content` object of a candidate; its `parts` field may be absent. -/
structure Content where
  parts : Option (List Part)
deriving DecidableEq, Repr

/-- One element of the `candidates` array; its `content` field may be absent. -/
structure Candidate where
  content : Option Content
deriving DecidableEq, Repr

/-- The decoded generation-service response body; `candidates` may be absent. -/
structure GenResponse where
  candidates : Option (List Candidate)
deriving DecidableEq, Repr

/-- Result of evaluating a JavaScript expression: a value, or a thrown
exception (here always a TypeError from a member access on `undefined`). -/
inductive JsResult (α : Type) where
  | ok (v : α) : JsResult α
  | thrown : JsResult α
deriving DecidableEq, Repr

/-- The reply extraction `data.candidates[0].content.parts[0].text`
(App.jsx line 104) applied to the first candidate, under JavaScript member
access semantics: reading a property of `undefined` throws, while a missing
terminal `text` field evaluates to the value `undefined` (`none`). -/
def extractReply (c : Candidate) : JsResult (Option String) :=
  match c.content with
  | none => JsResult.thrown
  | some co =>
    match co.parts with
    | none => JsResult.thrown
    | some ps =>
      match ps with
      | [] => JsResult.thrown
      | p :: _ => JsResult.ok p.text

/-- Oracle for one generation round trip: either the `fetch`/`json` pair
throws (network or decoding failure), or it yields a decoded response body. -/
inductive GenOutcome where
  | transportError : GenOutcome
  | response (d : GenResponse) : GenOutcome
deriving DecidableEq, Repr

/-- Oracle for the persistence `fetch` to `/api/save`. -/
inductive SaveOutcome where
  | ok : SaveOutcome
  | failed : SaveOutcome
deriving DecidableEq, Repr

/-- Payload of a persistence call: `{ prompt, response: botReply }`
(App.jsx line 113); the response text may be `undefined`. -/
structure SaveReq where
  prompt : String
  response : Option String
deriving DecidableEq, Repr

/-- Observable outcome of one `handleSubmit` invocation: the final component
state plus the effects it performed — generation requests issued (their prompt
payloads), persistence requests issued, `alert` notices shown, `console.error`
invocations, and whether an exception escaped to the caller. -/
structure SubmitResult where
  state : AppState
  genCalls : List String
  saveCalls : List SaveReq
  alerts : List String
  errorLogs : Nat
  threw : Bool
deriving DecidableEq, Repr

/-- The blank-prompt test `!prompt.trim()` (App.jsx line 73).  `trim` removes
whitespace from both ends, and the trimmed string is empty exactly when every
character of the prompt is whitespace; the test is stated in that
character-level form, which is directly computable. -/
def isBlank (s : String) : Bool :=
  s.data.all Char.isWhitespace

/-- The state right after acceptance (App.jsx lines 80-86): the user message
is appended, the pending input is cleared and the loading flag set — this is
the state while the generation request is in flight. -/
def submitPending (st : AppState) (tu : Nat) : AppState :=
  { st with
    messages := st.messages ++ [{ text := some st.prompt, isUser := true, timestamp := tu }]
    prompt := ""
    isLoading := true }

/-- A rejected `handleSubmit`: no state change, no effects. -/
def submitNoop (st : AppState) : SubmitResult :=
  { state := st, genCalls := [], saveCalls := [], alerts := [], errorLogs := 0, threw := false }

/-- Outcome of a failed exchange (transport error, malformed response, or a
thrown reply extraction): the `catch`/`else` branch logs once and the
`finally` clears the loading flag; the pending state `st1` is otherwise kept.
`p` is the prompt captured by the closure, already sent to the generation
service. -/
def submitFailed (st1 : AppState) (p : String) : SubmitResult :=
  { state := { st1 with isLoading := false }
    genCalls := [p]
    saveCalls := []
    alerts := []
    errorLogs := 1
    threw := false }

/-- The guarded region of `handleSubmit` (App.jsx lines 89-123): one
generation request, response handling, best-effort persistence, `catch`
logging and `finally` clearing of the loading flag. -/
def submitExchange (st : AppState) (tu tb : Nat) (gen : GenOutcome) (save : SaveOutcome) :
    SubmitResult :=
  let st1 := submitPending st tu
  match gen with
  | GenOutcome.transportError => submitFailed st1 st.prompt
  | GenOutcome.response d =>
    match d.candidates with
    | none => submitFailed st1 st.prompt
    | some [] => submitFailed st1 st.prompt
    | some (c :: _) =>
      match extractReply c with
      | JsResult.thrown => submitFailed st1 st.prompt
      | JsResult.ok botReply =>
        let st2 : AppState := { st1 with
          messages := st1.messages ++ [{ text := botReply, isUser := false, timestamp := tb }] }
        match save with
        | SaveOutcome.ok =>
          { state := { st2 with isLoading := false }
            genCalls := [st.prompt]
            saveCalls := [{ prompt := st.prompt, response := botReply }]
            alerts := []
            errorLogs := 0
            threw := false }
        | SaveOutcome.failed =>
          { state := { st2 with isLoading := false }
            genCalls := [st.prompt]
            saveCalls := [{ prompt := st.prompt, response := botReply }]
            alerts := []
            errorLogs := 1
            threw := false }

/-- `handleSubmit` (App.jsx lines 68-124).  `user` is the identity signal,
`tu` and `tb` the two `new Date()` readings, `gen` and `save` the outcomes of
the two remote calls.  Guard order follows the code: identity, trimmed
prompt, message-count limit. -/
def handleSubmit (user : Bool) (st : AppState) (tu tb : Nat)
    (gen : GenOutcome) (save : SaveOutcome) : SubmitResult :=
  if user = false then
    submitNoop st
  else if isBlank st.prompt then
    submitNoop st
  else if maxMessagesPerSession ≤ st.messages.length then
    { submitNoop st with alerts := ["Chat limit reached. Please start a new chat."] }
  else
    submitExchange st tu tb gen save

/-- The reply the guarded region manages to extract, if any: `some r` exactly
when `data.candidates` exists and is non-empty and the extraction on the
first candidate does not throw. -/
def replyOf (gen : GenOutcome) : Option (Option String) :=
  match gen with
  | GenOutcome.transportError => none
  | GenOutcome.response d =>
    match d.candidates with
    | none => none
    | some [] => none
    | some (c :: _) =>
      match extractReply c with
      | JsResult.thrown => none
      | JsResult.ok r => some r

/-- Outcome of `handleNewChat`: the new state and the `localStorage.setItem`
writes performed. -/
structure NewChatResult where
  state : AppState
  storageWrites : List (List Session)
deriving DecidableEq, Repr

/-- `handleNewChat` (App.jsx lines 53-66): if the buffer is non-empty and no
archived session compares equal to it (`JSON.stringify` comparison, modelled
as structural equality), append a snapshot and persist the archive; in every
case clear the buffer. -/
def handleNewChat (st : AppState) : NewChatResult :=
  if 0 < st.messages.length then
    if st.messages ∈ st.chatSessions then
      { state := { st with messages := [] }, storageWrites := [] }
    else
      { state := { st with
          chatSessions := st.chatSessions ++ [st.messages]
          messages := [] }
        storageWrites := [st.chatSessions ++ [st.messages]] }
  else
    { state := { st with messages := [] }, storageWrites := [] }

/-- One remote history record `{ prompt, response, timestamp }`. -/
structure HistoryRecord where
  prompt : String
  response : String
  timestamp : Nat
deriving DecidableEq, Repr

/-- The History Loader expansion (App.jsx lines 40-44):
`data.map(chat => [userMsg, botMsg]).flat()`. -/
def expandHistory (data : List HistoryRecord) : List Message :=
  (data.map (fun chat =>
    [{ text := some chat.prompt, isUser := true, timestamp := chat.timestamp },
     { text := some chat.response, isUser := false, timestamp := chat.timestamp }])).flatten

/-- `fetchChatHistory`'s successful path (App.jsx line 44):
`setMessages(history.flat())` replaces the buffer with the expansion. -/
def fetchChatHistory (st : AppState) (data : List HistoryRecord) : AppState :=
  { st with messages := expandHistory data }

/-- Number of user-authored messages in a buffer. -/
def userTurns (ms : List Message) : Nat :=
  (ms.filter (fun m => m.isUser)).length

/-- One user interaction: type a prompt into the input field, then submit it;
the oracle fields fix the timestamps and the remote outcomes of this step. -/
structure SubmitInput where
  prompt : String
  tu : Nat
  tb : Nat
  gen : GenOutcome
  save : SaveOutcome
deriving DecidableEq, Repr

/-- Type the prompt (the input field's `onChange` runs `setPrompt`) and call
`handleSubmit` with the identity present. -/
def stepSubmit (st : AppState) (i : SubmitInput) : SubmitResult :=
  handleSubmit true { st with prompt := i.prompt } i.tu i.tb i.gen i.save

/-- Run a sequence of user interactions from a starting state. -/
def runSubmits : AppState → List SubmitInput → AppState
  | st, [] => st
  | st, i :: is => runSubmits (stepSubmit st i).state is

/-- The step passes all three guards of `handleSubmit` (with identity
present): non-blank trimmed prompt and buffer length below the limit. -/
def stepAccepted (st : AppState) (i : SubmitInput) : Bool :=
  !(isBlank i.prompt) && decide (st.messages.length < maxMessagesPerSession)

/-- Every step of the run is accepted (its remote outcome is unconstrained). -/
def acceptedRun : AppState → List SubmitInput → Bool
  | _, [] => true
  | st, i :: is => stepAccepted st i && acceptedRun (stepSubmit st i).state is

/-- Every step of the run is accepted and its generation call yields a reply. -/
def goodRun : AppState → List SubmitInput → Bool
  | _, [] => true
  | st, i :: is =>
    stepAccepted st i && (replyOf i.gen).isSome && goodRun (stepSubmit st i).state is

/-- Buffer lengths observed while each step of the run is pending (between
acceptance and settlement of the generation call). -/
def runPendingLens : AppState → List SubmitInput → List Nat
  | _, [] => []
  | st, i :: is =>
    (submitPending { st with prompt := i.prompt } i.tu).messages.length
      :: runPendingLens (stepSubmit st i).state is

/-- Buffer lengths observed after each step of the run settles. -/
def runPostLens : AppState → List SubmitInput → List Nat
  | _, [] => []
  | st, i :: is => (stepSubmit st i).state.messages.length :: runPostLens (stepSubmit st i).state is

/-- The empty starting state: no input, empty buffer, empty archive, idle. -/
def emptyState : AppState :=
  { prompt := "", messages := [], chatSessions := [], isLoading := false }

/-- The generation outcome is a transport failure or a response whose
`candidates` field is absent or empty — the failure class of spec §4.3.5. -/
def malformedOrTransport (gen : GenOutcome) : Bool :=
  match gen with
  | GenOutcome.transportError => true
  | GenOutcome.response d =>
    match d.candidates with
    | none => true
    | some [] => true
    | some (_ :: _) => false

/-- A fully well-formed generation response carrying reply text `r` (with
`r = none` for a present `parts[0]` whose `text` field is absent). -/
def genReplyOutcome (r : Option String) : GenOutcome :=
  GenOutcome.response
    { candidates := some [{ content := some { parts := some [{ text := r }] } }] }

/-- A buffer of twenty user-authored messages, at the session limit. -/
def limitState : AppState :=
  { prompt := "hi"
    messages := List.replicate maxMessagesPerSession
      { text := some "x", isUser := true, timestamp := 0 }
    chatSessions := []
    isLoading := false }

/-- Two accepted interactions: the first one's generation call fails in
transport, the second one succeeds with reply `"r"`. -/
def mixedRun : List SubmitInput :=
  [{ prompt := "a", tu := 0, tb := 1, gen := GenOutcome.transportError, save := SaveOutcome.ok },
   { prompt := "b", tu := 2, tb := 3, gen := genReplyOutcome (some "r"), save := SaveOutcome.ok }]

/-- Eleven interactions whose generation calls all fail in transport. -/
def elevenFailures : List SubmitInput :=
  (List.range 11).map (fun k =>
    { prompt := "q", tu := 2 * k, tb := 2 * k + 1
      gen := GenOutcome.transportError, save := SaveOutcome.ok })

/-- A one-message buffer over an archive holding one distinct session. -/
def seedState : AppState :=
  { prompt := ""
    messages := [{ text := some "m", isUser := true, timestamp := 2 }]
    chatSessions := [[{ text := some "a", isUser := true, timestamp := 0 }]]
    isLoading := false }

/-- An archive already holding two structurally equal sessions. -/
def dupArchiveState : AppState :=
  { prompt := ""
    messages := []
    chatSessions := [[{ text := some "a", isUser := true, timestamp := 0 }],
                     [{ text := some "a", isUser := true, timestamp := 0 }]]
    isLoading := false }

/-! ### Unfolding lemmas for `handleSubmit` -/

theorem handleSubmit_accepted (st : AppState) (tu tb : Nat) (gen : GenOutcome)
    (save : SaveOutcome) (hp : isBlank st.prompt = false)
    (hl : st.messages.length < maxMessagesPerSession) :
    handleSubmit true st tu tb gen save = submitExchange st tu tb gen save := by
  unfold handleSubmit
  simp [hp, Nat.not_le.mpr hl]

theorem handleSubmit_limit (st : AppState) (tu tb : Nat) (gen : GenOutcome)
    (save : SaveOutcome) (hp : isBlank st.prompt = false)
    (hl : maxMessagesPerSession ≤ st.messages.length) :
    handleSubmit true st tu tb gen save =
      { submitNoop st with alerts := ["Chat limit reached. Please start a new chat."] } := by
  unfold handleSubmit
  simp [hp, hl]

theorem submitExchange_none (st : AppState) (tu tb : Nat) (gen : GenOutcome)
    (save : SaveOutcome) (hr : replyOf gen = none) :
    submitExchange st tu tb gen save = submitFailed (submitPending st tu) st.prompt := by
  cases gen with
  | transportError => rfl
  | response d =>
    cases hc : d.candidates with
    | none => simp [submitExchange, hc]
    | some cs =>
      cases cs with
      | nil => simp [submitExchange, hc]
      | cons c cs' =>
        cases hx : extractReply c with
        | thrown => simp [submitExchange, hc, hx]
        | ok r0 => simp [replyOf, hc, hx] at hr

theorem submitExchange_some (st : AppState) (tu tb : Nat) (gen : GenOutcome)
    (save : SaveOutcome) (r : Option String) (hr : replyOf gen = some r) :
    submitExchange st tu tb gen save =
      { state :=
          { prompt := ""
            messages := st.messages ++
              [{ text := some st.prompt, isUser := true, timestamp := tu },
               { text := r, isUser := false, timestamp := tb }]
            chatSessions := st.chatSessions
            isLoading := false }
        genCalls := [st.prompt]
        saveCalls := [{ prompt := st.prompt, response := r }]
        alerts := []
        errorLogs := if save = SaveOutcome.failed then 1 else 0
        threw := false } := by
  cases gen with
  | transportError => simp [replyOf] at hr
  | response d =>
    cases hc : d.candidates with
    | none => simp [replyOf, hc] at hr
    | some cs =>
      cases cs with
      | nil => simp [replyOf, hc] at hr
      | cons c cs' =>
        cases hx : extractReply c with
        | thrown => simp [replyOf, hc, hx] at hr
        | ok r0 =>
          have hr0 : r0 = r := by simpa [replyOf, hc, hx] using hr
          subst hr0
          cases save <;> simp [submitExchange, hc, hx, submitPending]

theorem userTurns_le_length (ms : List Message) : userTurns ms ≤ ms.length :=
  List.length_filter_le _ ms

/-! ### Claim theorems -/

/-- Claim C1: with the identity present and a prompt that does not trim to
empty, submitting on a buffer holding `maxMessagesPerSession` user-authored
turns is rejected — the component state is unchanged, no generation request
is issued and a limit notice is shown — and a generation request is issued
only when the buffer length is strictly below `maxMessagesPerSession`. -/
theorem submit_limit_guard (st : AppState) (tu tb : Nat) (gen : GenOutcome)
    (save : SaveOutcome) (hp : isBlank st.prompt = false) :
    (userTurns st.messages = maxMessagesPerSession →
      (handleSubmit true st tu tb gen save).state = st ∧
      (handleSubmit true st tu tb gen save).genCalls = [] ∧
      (handleSubmit true st tu tb gen save).alerts ≠ []) ∧
    ((handleSubmit true st tu tb gen save).genCalls ≠ [] →
      st.messages.length < maxMessagesPerSession) := by
  constructor
  · intro hut
    have hl : maxMessagesPerSession ≤ st.messages.length :=
      hut ▸ userTurns_le_length st.messages
    rw [handleSubmit_limit st tu tb gen save hp hl]
    exact ⟨rfl, rfl, by simp [submitNoop]⟩
  · intro hg
    by_contra hl
    push_neg at hl
    rw [handleSubmit_limit st tu tb gen save hp hl] at hg
    exact hg rfl

/-- Witness for C1 at a concrete buffer of twenty user turns. -/
theorem submit_limit_guard_witness :
    (userTurns limitState.messages = maxMessagesPerSession →
      (handleSubmit true limitState 0 1 GenOutcome.transportError SaveOutcome.ok).state =
        limitState ∧
      (handleSubmit true limitState 0 1 GenOutcome.transportError SaveOutcome.ok).genCalls = [] ∧
      (handleSubmit true limitState 0 1 GenOutcome.transportError SaveOutcome.ok).alerts ≠ []) ∧
    ((handleSubmit true limitState 0 1 GenOutcome.transportError SaveOutcome.ok).genCalls ≠ [] →
      limitState.messages.length < maxMessagesPerSession) :=
  submit_limit_guard limitState 0 1 GenOutcome.transportError SaveOutcome.ok (by decide)

/-- Claim C3: any accepted submit — whatever the generation outcome and
whatever the persistence outcome — finishes with the loading flag false and
without an exception escaping to the caller. -/
theorem submit_clears_loading (st : AppState) (tu tb : Nat) (gen : GenOutcome)
    (save : SaveOutcome) (hp : isBlank st.prompt = false)
    (hl : st.messages.length < maxMessagesPerSession) :
    (handleSubmit true st tu tb gen save).state.isLoading = false ∧
    (handleSubmit true st tu tb gen save).threw = false := by
  rw [handleSubmit_accepted st tu tb gen save hp hl]
  cases hr : replyOf gen with
  | none => rw [submitExchange_none st tu tb gen save hr]; exact ⟨rfl, rfl⟩
  | some r => rw [submitExchange_some st tu tb gen save r hr]; exact ⟨rfl, rfl⟩

/-- Witness for C3 at a concrete accepted submit with a transport failure. -/
theorem submit_clears_loading_witness :
    (handleSubmit true { emptyState with prompt := "hi" } 0 1 GenOutcome.transportError
      SaveOutcome.ok).state.isLoading = false ∧
    (handleSubmit true { emptyState with prompt := "hi" } 0 1 GenOutcome.transportError
      SaveOutcome.ok).threw = false :=
  submit_clears_loading { emptyState with prompt := "hi" } 0 1 GenOutcome.transportError
    SaveOutcome.ok (by decide) (by decide)

/-- Claim C8: with the identity absent, or with a prompt that trims to the
empty string, `handleSubmit` is a no-op: the component state (in particular
the Transcript Buffer) is unchanged and no network request of either kind is
issued. -/
theorem submit_precondition_noop (user : Bool) (st : AppState) (tu tb : Nat)
    (gen : GenOutcome) (save : SaveOutcome)
    (h : user = false ∨ isBlank st.prompt = true) :
    (handleSubmit user st tu tb gen save).state = st ∧
    (handleSubmit user st tu tb gen save).genCalls = [] ∧
    (handleSubmit user st tu tb gen save).saveCalls = [] ∧
    (handleSubmit user st tu tb gen save).alerts = [] := by
  cases user with
  | false => exact ⟨rfl, rfl, rfl, rfl⟩
  | true =>
    rcases h with h | h
    · exact absurd h (by simp)
    · unfold handleSubmit
      simp [h, submitNoop]

/-- Witness for C8 at a whitespace-only prompt. -/
theorem submit_precondition_noop_witness :
    (handleSubmit true { emptyState with prompt := "  " } 0 1 GenOutcome.transportError
      SaveOutcome.ok).state = { emptyState with prompt := "  " } ∧
    (handleSubmit true { emptyState with prompt := "  " } 0 1 GenOutcome.transportError
      SaveOutcome.ok).genCalls = [] ∧
    (handleSubmit true { emptyState with prompt := "  " } 0 1 GenOutcome.transportError
      SaveOutcome.ok).saveCalls = [] ∧
    (handleSubmit true { emptyState with prompt := "  " } 0 1 GenOutcome.transportError
      SaveOutcome.ok).alerts = [] :=
  submit_precondition_noop true { emptyState with prompt := "  " } 0 1
    GenOutcome.transportError SaveOutcome.ok (Or.inr (by decide))

/-- Claim C4: an accepted submit whose generation call yields reply text `r`
appends the user message followed by a bot message with text `r`, issues
exactly one persistence call carrying the prompt and `r`, and completes with
the loading flag cleared; when the persistence call fails the outcome is the
same except that the failure is logged once — the appended messages are not
rolled back. -/
theorem submit_success_appends (st : AppState) (tu tb : Nat) (gen : GenOutcome)
    (save : SaveOutcome) (r : String)
    (hp : isBlank st.prompt = false) (hl : st.messages.length < maxMessagesPerSession)
    (hr : replyOf gen = some (some r)) :
    (handleSubmit true st tu tb gen save).state.messages =
      st.messages ++
        [{ text := some st.prompt, isUser := true, timestamp := tu },
         { text := some r, isUser := false, timestamp := tb }] ∧
    (handleSubmit true st tu tb gen save).saveCalls =
      [{ prompt := st.prompt, response := some r }] ∧
    (handleSubmit true st tu tb gen save).threw = false ∧
    (handleSubmit true st tu tb gen save).state.isLoading = false ∧
    (handleSubmit true st tu tb gen save).alerts = [] ∧
    (save = SaveOutcome.failed → (handleSubmit true st tu tb gen save).errorLogs = 1) := by
  rw [handleSubmit_accepted st tu tb gen save hp hl,
      submitExchange_some st tu tb gen save (some r) hr]
  refine ⟨rfl, rfl, rfl, rfl, rfl, ?_⟩
  intro hs
  simp [hs]

/-- Witness for C4: reply `"hi"` with a failing persistence call. -/
theorem submit_success_appends_witness :
    (handleSubmit true { emptyState with prompt := "p" } 0 1 (genReplyOutcome (some "hi"))
      SaveOutcome.failed).state.messages =
      ({ emptyState with prompt := "p" } : AppState).messages ++
        [{ text := some "p", isUser := true, timestamp := 0 },
         { text := some "hi", isUser := false, timestamp := 1 }] ∧
    (handleSubmit true { emptyState with prompt := "p" } 0 1 (genReplyOutcome (some "hi"))
      SaveOutcome.failed).saveCalls = [{ prompt := "p", response := some "hi" }] ∧
    (handleSubmit true { emptyState with prompt := "p" } 0 1 (genReplyOutcome (some "hi"))
      SaveOutcome.failed).threw = false ∧
    (handleSubmit true { emptyState with prompt := "p" } 0 1 (genReplyOutcome (some "hi"))
      SaveOutcome.failed).state.isLoading = false ∧
    (handleSubmit true { emptyState with prompt := "p" } 0 1 (genReplyOutcome (some "hi"))
      SaveOutcome.failed).alerts = [] ∧
    (SaveOutcome.failed = SaveOutcome.failed →
      (handleSubmit true { emptyState with prompt := "p" } 0 1 (genReplyOutcome (some "hi"))
        SaveOutcome.failed).errorLogs = 1) :=
  submit_success_appends { emptyState with prompt := "p" } 0 1 (genReplyOutcome (some "hi"))
    SaveOutcome.failed "hi" (by decide) (by decide) (by decide)

/-- Claim C5: an accepted submit whose generation call fails in transport or
returns a response with missing or empty `candidates` appends no bot message
(the user message appended at acceptance remains), issues no persistence
call, logs the failure once, clears the loading flag and does not throw. -/
theorem submit_failure_keeps_user (st : AppState) (tu tb : Nat) (gen : GenOutcome)
    (save : SaveOutcome) (hp : isBlank st.prompt = false)
    (hl : st.messages.length < maxMessagesPerSession)
    (hm : malformedOrTransport gen = true) :
    (handleSubmit true st tu tb gen save).state.messages =
      st.messages ++ [{ text := some st.prompt, isUser := true, timestamp := tu }] ∧
    (handleSubmit true st tu tb gen save).saveCalls = [] ∧
    (handleSubmit true st tu tb gen save).errorLogs = 1 ∧
    (handleSubmit true st tu tb gen save).state.isLoading = false ∧
    (handleSubmit true st tu tb gen save).threw = false := by
  have hr : replyOf gen = none := by
    cases gen with
    | transportError => rfl
    | response d =>
      cases hc : d.candidates with
      | none => simp [replyOf, hc]
      | some cs =>
        cases cs with
        | nil => simp [replyOf, hc]
        | cons c cs' => simp [malformedOrTransport, hc] at hm
  rw [handleSubmit_accepted st tu tb gen save hp hl,
      submitExchange_none st tu tb gen save hr]
  exact ⟨rfl, rfl, rfl, rfl, rfl⟩

/-- Witness for C5: the spec scenario `{candidates: []}`. -/
theorem submit_failure_keeps_user_witness :
    (handleSubmit true { emptyState with prompt := "p" } 0 1
      (GenOutcome.response { candidates := some [] }) SaveOutcome.ok).state.messages =
      ({ emptyState with prompt := "p" } : AppState).messages ++
        [{ text := some "p", isUser := true, timestamp := 0 }] ∧
    (handleSubmit true { emptyState with prompt := "p" } 0 1
      (GenOutcome.response { candidates := some [] }) SaveOutcome.ok).saveCalls = [] ∧
    (handleSubmit true { emptyState with prompt := "p" } 0 1
      (GenOutcome.response { candidates := some [] }) SaveOutcome.ok).errorLogs = 1 ∧
    (handleSubmit true { emptyState with prompt := "p" } 0 1
      (GenOutcome.response { candidates := some [] }) SaveOutcome.ok).state.isLoading = false ∧
    (handleSubmit true { emptyState with prompt := "p" } 0 1
      (GenOutcome.response { candidates := some [] }) SaveOutcome.ok).threw = false :=
  submit_failure_keeps_user { emptyState with prompt := "p" } 0 1
    (GenOutcome.response { candidates := some [] }) SaveOutcome.ok (by decide) (by decide)
    (by decide)

/-- Claim C10 fails as stated: a non-empty `candidates` array whose first
candidate has a `parts[0]` object carrying no `text` field does not make the
extraction fail — `data.candidates[0].content.parts[0].text` evaluates to
`undefined`, the code appends a bot message whose text is `undefined`, and a
persistence call carrying that `undefined` response is issued. -/
theorem submit_undefined_reply_cex :
    (handleSubmit true { emptyState with prompt := "p" } 0 1 (genReplyOutcome none)
      SaveOutcome.ok).saveCalls = [{ prompt := "p", response := none }] ∧
    (handleSubmit true { emptyState with prompt := "p" } 0 1 (genReplyOutcome none)
      SaveOutcome.ok).state.messages =
      [{ text := some "p", isUser := true, timestamp := 0 },
       { text := none, isUser := false, timestamp := 1 }] := by
  decide

/-- Claim C10 (amended): for a response whose `candidates` array is non-empty
but whose first candidate makes the extraction
`candidates[0].content.parts[0].text` throw before its terminal field —
`content` absent, `parts` absent, or `parts` empty — the accepted submit
propagates no exception, appends no bot message, issues no persistence call
and clears the loading flag. -/
theorem submit_extraction_throw (st : AppState) (tu tb : Nat) (save : SaveOutcome)
    (d : GenResponse) (c : Candidate) (cs : List Candidate)
    (hp : isBlank st.prompt = false) (hl : st.messages.length < maxMessagesPerSession)
    (hc : d.candidates = some (c :: cs)) (hx : extractReply c = JsResult.thrown) :
    (handleSubmit true st tu tb (GenOutcome.response d) save).threw = false ∧
    (handleSubmit true st tu tb (GenOutcome.response d) save).state.messages =
      st.messages ++ [{ text := some st.prompt, isUser := true, timestamp := tu }] ∧
    (handleSubmit true st tu tb (GenOutcome.response d) save).saveCalls = [] ∧
    (handleSubmit true st tu tb (GenOutcome.response d) save).state.isLoading = false := by
  have hr : replyOf (GenOutcome.response d) = none := by simp [replyOf, hc, hx]
  rw [handleSubmit_accepted st tu tb _ save hp hl,
      submitExchange_none st tu tb _ save hr]
  exact ⟨rfl, rfl, rfl, rfl⟩

/-- Witness for the amended C10: first candidate with `content` absent. -/
theorem submit_extraction_throw_witness :
    (handleSubmit true { emptyState with prompt := "p" } 0 1
      (GenOutcome.response { candidates := some [{ content := none }] })
      SaveOutcome.ok).threw = false ∧
    (handleSubmit true { emptyState with prompt := "p" } 0 1
      (GenOutcome.response { candidates := some [{ content := none }] })
      SaveOutcome.ok).state.messages =
      ({ emptyState with prompt := "p" } : AppState).messages ++
        [{ text := some "p", isUser := true, timestamp := 0 }] ∧
    (handleSubmit true { emptyState with prompt := "p" } 0 1
      (GenOutcome.response { candidates := some [{ content := none }] })
      SaveOutcome.ok).saveCalls = [] ∧
    (handleSubmit true { emptyState with prompt := "p" } 0 1
      (GenOutcome.response { candidates := some [{ content := none }] })
      SaveOutcome.ok).state.isLoading = false :=
  submit_extraction_throw { emptyState with prompt := "p" } 0 1 SaveOutcome.ok
    { candidates := some [{ content := none }] } { content := none } [] (by decide) (by decide)
    (by decide) (by decide)

/-! ### Session Manager (`handleNewChat`) -/

theorem handleNewChat_messages (st : AppState) : (handleNewChat st).state.messages = [] := by
  unfold handleNewChat
  split
  · split
    · rfl
    · rfl
  · rfl

theorem handleNewChat_of_empty (st : AppState) (h : st.messages = []) :
    handleNewChat st = { state := { st with messages := [] }, storageWrites := [] } := by
  unfold handleNewChat
  simp [h]

theorem handleNewChat_nodup (st : AppState) (hnd : st.chatSessions.Nodup) :
    (handleNewChat st).state.chatSessions.Nodup := by
  unfold handleNewChat
  split
  · split
    · exact hnd
    · next hmem => simp [List.nodup_append, hnd, hmem]
  · exact hnd

theorem handleNewChat_sessions_length (st : AppState) :
    (handleNewChat st).state.chatSessions.length ≤ st.chatSessions.length + 1 := by
  unfold handleNewChat
  split
  · split
    · exact Nat.le_succ _
    · simp
  · exact Nat.le_succ _

/-- Claim C6 fails as stated: `handleNewChat` only compares the current
buffer against the archive, so an archive that already holds two copies of
the same session still holds them after the call — the "at most one copy"
guarantee does not hold for every starting archive state. -/
theorem newChat_dedup_cex :
    ¬ (handleNewChat dupArchiveState).state.chatSessions.Nodup := by decide

/-- Claim C6 (amended): after `handleNewChat` the Transcript Buffer is
empty; if the Archive held at most one copy of any message sequence before
the call, it still does after; on an empty buffer the call never appends to
the Archive (and performs no storage write); and two consecutive calls with
no intervening append add at most one Archive entry. -/
theorem newChat_laws (st : AppState) (hnd : st.chatSessions.Nodup) :
    (handleNewChat st).state.messages = [] ∧
    (handleNewChat st).state.chatSessions.Nodup ∧
    (st.messages = [] →
      (handleNewChat st).state.chatSessions = st.chatSessions ∧
      (handleNewChat st).storageWrites = []) ∧
    (handleNewChat (handleNewChat st).state).state.chatSessions.length ≤
      st.chatSessions.length + 1 := by
  refine ⟨handleNewChat_messages st, handleNewChat_nodup st hnd, ?_, ?_⟩
  · intro h
    rw [handleNewChat_of_empty st h]
    exact ⟨rfl, rfl⟩
  · rw [handleNewChat_of_empty _ (handleNewChat_messages st)]
    exact handleNewChat_sessions_length st

/-- Witness for the amended C6: a one-message buffer and an archive already
holding one distinct session. -/
theorem newChat_laws_witness :
    (handleNewChat seedState).state.messages = [] ∧
    (handleNewChat seedState).state.chatSessions.Nodup ∧
    (seedState.messages = [] →
      (handleNewChat seedState).state.chatSessions = seedState.chatSessions ∧
      (handleNewChat seedState).storageWrites = []) ∧
    (handleNewChat (handleNewChat seedState).state).state.chatSessions.length ≤
      seedState.chatSessions.length + 1 :=
  newChat_laws seedState (by decide)

/-! ### History Loader -/

theorem expandHistory_cons (d : HistoryRecord) (ds : List HistoryRecord) :
    expandHistory (d :: ds) =
      { text := some d.prompt, isUser := true, timestamp := d.timestamp } ::
      { text := some d.response, isUser := false, timestamp := d.timestamp } ::
      expandHistory ds := rfl

theorem expandHistory_length (data : List HistoryRecord) :
    (expandHistory data).length = 2 * data.length := by
  induction data with
  | nil => rfl
  | cons d ds ih =>
    rw [expandHistory_cons]
    simp only [List.length_cons, ih]
    omega

theorem expandHistory_getElem (data : List HistoryRecord) (k : Nat) (c : HistoryRecord)
    (hk : data[k]? = some c) :
    (expandHistory data)[2 * k]? =
      some { text := some c.prompt, isUser := true, timestamp := c.timestamp } ∧
    (expandHistory data)[2 * k + 1]? =
      some { text := some c.response, isUser := false, timestamp := c.timestamp } := by
  induction data generalizing k with
  | nil => simp at hk
  | cons d ds ih =>
    cases k with
    | zero =>
      simp only [List.getElem?_cons_zero, Option.some.injEq] at hk
      subst hk
      exact ⟨rfl, by simp [expandHistory_cons]⟩
    | succ k =>
      simp only [List.getElem?_cons_succ] at hk
      have h2 : 2 * (k + 1) = 2 * k + 1 + 1 := by ring
      have h3 : 2 * (k + 1) + 1 = 2 * k + 1 + 1 + 1 := by ring
      rw [expandHistory_cons]
      constructor
      · rw [h2]
        simpa using (ih k hk).1
      · rw [h3]
        simpa using (ih k hk).2

/-- Claim C7: the History Loader replaces the buffer with the flat, order
preserving expansion of the remote records: the resulting buffer has exactly
two messages per record, and for every record index `k` the messages at
positions `2k` and `2k + 1` are the user message carrying the record's
prompt and the bot message carrying its response, both stamped with the
record's timestamp. -/
theorem history_loader_expansion (st : AppState) (data : List HistoryRecord) :
    (fetchChatHistory st data).messages.length = 2 * data.length ∧
    ∀ k c, data[k]? = some c →
      (fetchChatHistory st data).messages[2 * k]? =
        some { text := some c.prompt, isUser := true, timestamp := c.timestamp } ∧
      (fetchChatHistory st data).messages[2 * k + 1]? =
        some { text := some c.response, isUser := false, timestamp := c.timestamp } :=
  ⟨expandHistory_length data, fun k c hk => expandHistory_getElem data k c hk⟩

/-- Witness for C7 at the spec scenario `[{prompt:"a", response:"b",
timestamp:T}]`. -/
theorem history_loader_expansion_witness :
    (fetchChatHistory emptyState
      [{ prompt := "a", response := "b", timestamp := 5 }]).messages.length = 2 ∧
    (fetchChatHistory emptyState
      [{ prompt := "a", response := "b", timestamp := 5 }]).messages[0]? =
      some { text := some "a", isUser := true, timestamp := 5 } ∧
    (fetchChatHistory emptyState
      [{ prompt := "a", response := "b", timestamp := 5 }]).messages[1]? =
      some { text := some "b", isUser := false, timestamp := 5 } :=
  ⟨(history_loader_expansion emptyState
      [{ prompt := "a", response := "b", timestamp := 5 }]).1,
   ((history_loader_expansion emptyState
      [{ prompt := "a", response := "b", timestamp := 5 }]).2 0
      { prompt := "a", response := "b", timestamp := 5 } (by decide)).1,
   ((history_loader_expansion emptyState
      [{ prompt := "a", response := "b", timestamp := 5 }]).2 0
      { prompt := "a", response := "b", timestamp := 5 } (by decide)).2⟩

/-! ### Runs of submissions -/

theorem stepAccepted_iff (st : AppState) (i : SubmitInput) :
    stepAccepted st i = true ↔
      isBlank i.prompt = false ∧ st.messages.length < maxMessagesPerSession := by
  simp [stepAccepted]

theorem stepSubmit_state_of_reply (st : AppState) (i : SubmitInput)
    (hacc : stepAccepted st i = true) (r : Option String) (hr : replyOf i.gen = some r) :
    (stepSubmit st i).state =
      { prompt := ""
        messages := st.messages ++
          [{ text := some i.prompt, isUser := true, timestamp := i.tu },
           { text := r, isUser := false, timestamp := i.tb }]
        chatSessions := st.chatSessions
        isLoading := false } := by
  obtain ⟨hp, hl⟩ := (stepAccepted_iff st i).mp hacc
  unfold stepSubmit
  rw [handleSubmit_accepted { st with prompt := i.prompt } i.tu i.tb i.gen i.save hp hl,
      submitExchange_some { st with prompt := i.prompt } i.tu i.tb i.gen i.save r hr]

theorem stepSubmit_state_of_noreply (st : AppState) (i : SubmitInput)
    (hacc : stepAccepted st i = true) (hr : replyOf i.gen = none) :
    (stepSubmit st i).state =
      { prompt := ""
        messages := st.messages ++
          [{ text := some i.prompt, isUser := true, timestamp := i.tu }]
        chatSessions := st.chatSessions
        isLoading := false } := by
  obtain ⟨hp, hl⟩ := (stepAccepted_iff st i).mp hacc
  unfold stepSubmit
  rw [handleSubmit_accepted { st with prompt := i.prompt } i.tu i.tb i.gen i.save hp hl,
      submitExchange_none { st with prompt := i.prompt } i.tu i.tb i.gen i.save hr]
  rfl

theorem stepSubmit_length_le (st : AppState) (i : SubmitInput)
    (hacc : stepAccepted st i = true) :
    (stepSubmit st i).state.messages.length ≤ st.messages.length + 2 := by
  cases hr : replyOf i.gen with
  | none =>
    rw [stepSubmit_state_of_noreply st i hacc hr]
    simp
  | some r =>
    rw [stepSubmit_state_of_reply st i hacc r hr]
    simp

theorem runLens_bounded (is : List SubmitInput) :
    ∀ st : AppState, acceptedRun st is = true →
      (∀ n ∈ runPendingLens st is, n ≤ 2 * maxMessagesPerSession) ∧
      (∀ n ∈ runPostLens st is, n ≤ 2 * maxMessagesPerSession) := by
  induction is with
  | nil =>
    intro st _
    exact ⟨by simp [runPendingLens], by simp [runPostLens]⟩
  | cons i is ih =>
    intro st h
    simp only [acceptedRun, Bool.and_eq_true] at h
    obtain ⟨hacc, hrest⟩ := h
    have hl : st.messages.length < maxMessagesPerSession :=
      ((stepAccepted_iff st i).mp hacc).2
    have hrec := ih (stepSubmit st i).state hrest
    constructor
    · intro n hn
      simp only [runPendingLens, List.mem_cons] at hn
      rcases hn with rfl | hn
      · simp only [submitPending, List.length_append, List.length_cons, List.length_nil]
        unfold maxMessagesPerSession at hl ⊢
        omega
      · exact hrec.1 n hn
    · intro n hn
      simp only [runPostLens, List.mem_cons] at hn
      rcases hn with rfl | hn
      · have := stepSubmit_length_le st i hacc
        unfold maxMessagesPerSession at hl ⊢
        omega
      · exact hrec.2 n hn

theorem runLens_parity (is : List SubmitInput) :
    ∀ st : AppState, goodRun st is = true → st.messages.length % 2 = 0 →
      (∀ n ∈ runPendingLens st is, n % 2 = 1) ∧
      (∀ n ∈ runPostLens st is, n % 2 = 0) := by
  induction is with
  | nil =>
    intro st _ _
    exact ⟨by simp [runPendingLens], by simp [runPostLens]⟩
  | cons i is ih =>
    intro st h he
    simp only [goodRun, Bool.and_eq_true] at h
    obtain ⟨⟨hacc, hsome⟩, hrest⟩ := h
    obtain ⟨r, hr⟩ := Option.isSome_iff_exists.mp hsome
    have hpost : (stepSubmit st i).state.messages.length = st.messages.length + 2 := by
      rw [stepSubmit_state_of_reply st i hacc r hr]
      simp
    have he2 : (stepSubmit st i).state.messages.length % 2 = 0 := by omega
    have hrec := ih (stepSubmit st i).state hrest he2
    constructor
    · intro n hn
      simp only [runPendingLens, List.mem_cons] at hn
      rcases hn with rfl | hn
      · simp only [submitPending, List.length_append, List.length_cons, List.length_nil]
        omega
      · exact hrec.1 n hn
    · intro n hn
      simp only [runPostLens, List.mem_cons] at hn
      rcases hn with rfl | hn
      · omega
      · exact hrec.2 n hn

theorem userTurns_append_pair (ms : List Message) (p : String) (r : Option String)
    (tu tb : Nat) :
    userTurns (ms ++ [{ text := some p, isUser := true, timestamp := tu },
                      { text := r, isUser := false, timestamp := tb }]) =
      userTurns ms + 1 := by
  simp [userTurns, List.filter_append]

theorem goodRun_counts (is : List SubmitInput) :
    ∀ st : AppState, goodRun st is = true →
      userTurns (runSubmits st is).messages = userTurns st.messages + is.length ∧
      (runSubmits st is).messages.length = st.messages.length + 2 * is.length := by
  induction is with
  | nil =>
    intro st _
    exact ⟨by simp [runSubmits], by simp [runSubmits]⟩
  | cons i is ih =>
    intro st h
    simp only [goodRun, Bool.and_eq_true] at h
    obtain ⟨⟨hacc, hsome⟩, hrest⟩ := h
    obtain ⟨r, hr⟩ := Option.isSome_iff_exists.mp hsome
    have hst := stepSubmit_state_of_reply st i hacc r hr
    have hrec := ih (stepSubmit st i).state hrest
    have hu : userTurns (stepSubmit st i).state.messages = userTurns st.messages + 1 := by
      rw [hst]
      exact userTurns_append_pair st.messages i.prompt r i.tu i.tb
    have hlen : (stepSubmit st i).state.messages.length = st.messages.length + 2 := by
      rw [hst]
      simp
    simp only [runSubmits, List.length_cons]
    constructor
    · rw [hrec.1, hu]
      omega
    · rw [hrec.2, hlen]
      omega

theorem goodRun_final_length (is : List SubmitInput) :
    ∀ st : AppState, goodRun st is = true → is ≠ [] →
      (runSubmits st is).messages.length ≤ maxMessagesPerSession + 1 := by
  induction is with
  | nil =>
    intro st _ hne
    exact absurd rfl hne
  | cons i is ih =>
    intro st h _
    simp only [goodRun, Bool.and_eq_true] at h
    obtain ⟨⟨hacc, hsome⟩, hrest⟩ := h
    cases is with
    | nil =>
      obtain ⟨r, hr⟩ := Option.isSome_iff_exists.mp hsome
      have hl : st.messages.length < maxMessagesPerSession :=
        ((stepAccepted_iff st i).mp hacc).2
      have hst := stepSubmit_state_of_reply st i hacc r hr
      simp only [runSubmits, hst]
      simp only [List.length_append, List.length_cons, List.length_nil]
      omega
    | cons j js => exact ih (stepSubmit st i).state hrest (by simp)

/-! ### Claims about runs -/

/-- Claim C2 fails as stated: `mixedRun` is a sequence of two accepted
submissions from the empty buffer whose second generation call succeeds with
reply `"r"`, yet the buffer lengths observed after each submission settles
are 1 and 3 — after the successful reply of the second submission the length
is 3, which is odd, and while that submission was pending it was 2, which is
even. -/
theorem submit_run_parity_cex :
    acceptedRun emptyState mixedRun = true ∧
    replyOf (genReplyOutcome (some "r")) = some (some "r") ∧
    runPostLens emptyState mixedRun = [1, 3] ∧
    runPendingLens emptyState mixedRun = [1, 2] := by decide

/-- Claim C2 (amended): over any sequence of accepted submissions every
buffer length observed — while a submission is pending or after it settles —
is at most `2 * maxMessagesPerSession`; and when additionally every
generation call of the run yields a reply and the starting buffer length is
even (as at session start), the length is odd while each submission is
pending and even after each reply. -/
theorem submit_run_parity (st : AppState) (is : List SubmitInput) :
    (acceptedRun st is = true →
      (∀ n ∈ runPendingLens st is, n ≤ 2 * maxMessagesPerSession) ∧
      (∀ n ∈ runPostLens st is, n ≤ 2 * maxMessagesPerSession)) ∧
    (goodRun st is = true → st.messages.length % 2 = 0 →
      (∀ n ∈ runPendingLens st is, n % 2 = 1) ∧
      (∀ n ∈ runPostLens st is, n % 2 = 0)) :=
  ⟨fun h => runLens_bounded is st h, fun h he => runLens_parity is st h he⟩

/-- Witness for the amended C2: one successful submission from the empty
state. -/
theorem submit_run_parity_witness :
    (∀ n ∈ runPendingLens emptyState
      [{ prompt := "a", tu := 0, tb := 1, gen := genReplyOutcome (some "r"),
         save := SaveOutcome.ok }], n % 2 = 1) ∧
    (∀ n ∈ runPostLens emptyState
      [{ prompt := "a", tu := 0, tb := 1, gen := genReplyOutcome (some "r"),
         save := SaveOutcome.ok }], n % 2 = 0) :=
  (submit_run_parity emptyState
    [{ prompt := "a", tu := 0, tb := 1, gen := genReplyOutcome (some "r"),
       save := SaveOutcome.ok }]).2 (by decide) (by decide)

/-- Claim C9 fails in its "at most 10 user turns" consequence: eleven
submissions, every one of them accepted by the limit check (each generation
call fails in transport, so each appends only the user message), put eleven
user-authored turns into one session. -/
theorem submit_turns_cex :
    acceptedRun emptyState elevenFailures = true ∧
    userTurns (runSubmits emptyState elevenFailures).messages = 11 := by decide

/-- Claim C9 (amended): the limit check compares the total message count
against `maxMessagesPerSession`, not the user-turn count — with the identity
present and a non-blank prompt, a generation call is issued iff the buffer
length is strictly below `maxMessagesPerSession`; any accepted submit leaves
at most `maxMessagesPerSession + 1` messages in the buffer; and over a run
of accepted submissions from the empty state whose generation calls all
succeed, at most 10 user turns enter the buffer. -/
theorem submit_total_count_limit (st : AppState) (tu tb : Nat) (gen : GenOutcome)
    (save : SaveOutcome) (is : List SubmitInput) (hp : isBlank st.prompt = false) :
    ((handleSubmit true st tu tb gen save).genCalls ≠ [] ↔
      st.messages.length < maxMessagesPerSession) ∧
    ((handleSubmit true st tu tb gen save).genCalls ≠ [] →
      (handleSubmit true st tu tb gen save).state.messages.length ≤
        maxMessagesPerSession + 1) ∧
    (goodRun emptyState is = true →
      userTurns (runSubmits emptyState is).messages ≤ 10) := by
  have hiff : (handleSubmit true st tu tb gen save).genCalls ≠ [] ↔
      st.messages.length < maxMessagesPerSession := by
    constructor
    · intro hg
      by_contra hl
      push_neg at hl
      rw [handleSubmit_limit st tu tb gen save hp hl] at hg
      exact hg rfl
    · intro hl
      rw [handleSubmit_accepted st tu tb gen save hp hl]
      cases hr : replyOf gen with
      | none =>
        rw [submitExchange_none st tu tb gen save hr]
        simp [submitFailed]
      | some r =>
        rw [submitExchange_some st tu tb gen save r hr]
        simp
  refine ⟨hiff, ?_, ?_⟩
  · intro hg
    have hl := hiff.mp hg
    rw [handleSubmit_accepted st tu tb gen save hp hl]
    cases hr : replyOf gen with
    | none =>
      rw [submitExchange_none st tu tb gen save hr]
      simp only [submitFailed, submitPending, List.length_append, List.length_cons,
        List.length_nil]
      unfold maxMessagesPerSession at hl ⊢
      omega
    | some r =>
      rw [submitExchange_some st tu tb gen save r hr]
      simp only [List.length_append, List.length_cons, List.length_nil]
      unfold maxMessagesPerSession at hl ⊢
      omega
  · intro hg
    cases is with
    | nil => simp [runSubmits, userTurns, emptyState]
    | cons i is' =>
      have h1 := goodRun_counts (i :: is') emptyState hg
      have h2 := goodRun_final_length (i :: is') emptyState hg (by simp)
      have h0 : userTurns emptyState.messages = 0 := rfl
      have h0l : emptyState.messages.length = 0 := rfl
      unfold maxMessagesPerSession at h2
      omega

/-- Witness for the amended C9: a fresh one-message buffer and a one-step
successful run. -/
theorem submit_total_count_limit_witness :
    ((handleSubmit true { emptyState with prompt := "p" } 0 1 GenOutcome.transportError
        SaveOutcome.ok).genCalls ≠ [] ↔
      ({ emptyState with prompt := "p" } : AppState).messages.length <
        maxMessagesPerSession) ∧
    ((handleSubmit true { emptyState with prompt := "p" } 0 1 GenOutcome.transportError
        SaveOutcome.ok).genCalls ≠ [] →
      (handleSubmit true { emptyState with prompt := "p" } 0 1 GenOutcome.transportError
        SaveOutcome.ok).state.messages.length ≤ maxMessagesPerSession + 1) ∧
    (goodRun emptyState
      [{ prompt := "a", tu := 0, tb := 1, gen := genReplyOutcome (some "r"),
         save := SaveOutcome.ok }] = true →
      userTurns (runSubmits emptyState
        [{ prompt := "a", tu := 0, tb := 1, gen := genReplyOutcome (some "r"),
           save := SaveOutcome.ok }]).messages ≤ 10) :=
  submit_total_count_limit { emptyState with prompt := "p" } 0 1 GenOutcome.transportError
    SaveOutcome.ok
    [{ prompt := "a", tu := 0, tb := 1, gen := genReplyOutcome (some "r"),
       save := SaveOutcome.ok }] (by decide)

end ChatApp
